import Mathlib

/-!
Shallow embedding of the order-taking pipeline from
`functional_domain_modelling_typescript` (common.simple-types,
place-order.pricing.ts, place-order.public-types.ts,
place-order.internal-types.ts, place-order.implementation).

Conventions of the embedding:
* TypeScript numbers are modelled as `Rat` (all numeric literals in the
  pipeline are exact decimals);
* `E.Either<L, R>` is modelled as `Except L R` (`E.left` = `.error`,
  `E.right` = `.ok`); `O.Option` is Lean's `Option`;
* `TE.TaskEither` is modelled as `Except` as well: the pipeline is a
  single-shot sequential composition and no claim concerns timing;
* a thrown JavaScript exception (only `Price.unsafeCreate` throws in the
  core) is modelled as the `.error` channel of an explicit `Except` layer,
  kept separate from the `Either`-left channel of the workflow.
-/

namespace OrderTaking

/-- Decidable equality on `Except`, used to evaluate outcomes of the
embedded functions on concrete inputs. -/
instance exceptDecEq (E A : Type) [DecidableEq E] [DecidableEq A] :
    DecidableEq (Except E A) := fun x y =>
  match x, y with
  | .ok a, .ok b =>
      if h : a = b then isTrue (by rw [h])
      else isFalse (by intro he; cases he; exact h rfl)
  | .ok _, .error _ => isFalse (by intro h; cases h)
  | .error _, .ok _ => isFalse (by intro h; cases h)
  | .error a, .error b =>
      if h : a = b then isTrue (by rw [h])
      else isFalse (by intro he; cases he; exact h rfl)

/-- Error carrying a field name, from `ConstrainedTypeError` in
common.simple-types. -/
structure ConstrainedTypeError where
  fieldName : String
  message : String
deriving DecidableEq, Repr

/-- Error carrying a field name, from `ProductCodeError` in
common.simple-types. -/
structure ProductCodeError where
  fieldName : String
  message : String
deriving DecidableEq, Repr

/-- Modelled from the spec: `VipStatusError` is exported by
common.simple-types, whose final revision (the one defining `VipStatus`)
is not among the source files; like the other creation errors it carries
a field name and a message. -/
structure VipStatusError where
  fieldName : String
  message : String
deriving DecidableEq, Repr

/-- Wrapped string, 50 chars or less and non-empty (`String50`). -/
structure String50 where
  value : String
deriving DecidableEq, Repr

/-- Wrapped email-address string (`EmailAddress`). -/
structure EmailAddress where
  value : String
deriving DecidableEq, Repr

/-- Wrapped zip-code string (`ZipCode`). -/
structure ZipCode where
  value : String
deriving DecidableEq, Repr

/-- Modelled from the spec: `UsStateCode` is used by the final revision of
common.compound-types and place-order.implementation but its definition in
common.simple-types is not among the source files; it wraps the raw state
string (place-order.implementation reads `address.state.value`). -/
structure UsStateCode where
  value : String
deriving DecidableEq, Repr

/-- Wrapped order-id string (`OrderId`). -/
structure OrderId where
  value : String
deriving DecidableEq, Repr

/-- Wrapped order-line-id string (`OrderLineId`). -/
structure OrderLineId where
  value : String
deriving DecidableEq, Repr

/-- Wrapped widget-code string (`WidgetCode`). -/
structure WidgetCode where
  value : String
deriving DecidableEq, Repr

/-- Wrapped gizmo-code string (`GizmoCode`). -/
structure GizmoCode where
  value : String
deriving DecidableEq, Repr

/-- `ProductCode = WidgetCode | GizmoCode`. -/
inductive ProductCode where
  | widget (code : WidgetCode)
  | gizmo (code : GizmoCode)
deriving DecidableEq, Repr

/-- `ProductCode.value`: the string inside either variant. -/
def ProductCode.value : ProductCode → String
  | .widget c => c.value
  | .gizmo c => c.value

/-- Wrapped unit quantity (`UnitQuantity`). -/
structure UnitQuantity where
  value : Rat
deriving DecidableEq, Repr

/-- Wrapped kilogram quantity (`KilogramQuantity`). -/
structure KilogramQuantity where
  value : Rat
deriving DecidableEq, Repr

/-- `OrderQuantity = UnitQuantity | KilogramQuantity`. -/
inductive OrderQuantity where
  | unit (q : UnitQuantity)
  | kilogram (q : KilogramQuantity)
deriving DecidableEq, Repr

/-- `OrderQuantity.value`: the number inside either variant. -/
def OrderQuantity.value : OrderQuantity → Rat
  | .unit q => q.value
  | .kilogram q => q.value

/-- Wrapped price (`Price`). -/
structure Price where
  value : Rat
deriving DecidableEq, Repr

/-- Wrapped billing amount (`BillingAmount`). -/
structure BillingAmount where
  value : Rat
deriving DecidableEq, Repr

/-- Modelled from the spec: `VipStatus` is defined in the missing final
revision of common.simple-types; §4.4 of the spec and the switch in
`freeVipShipping` give exactly the statuses "Normal" and "Vip". -/
inductive VipStatus where
  | normal
  | vip
deriving DecidableEq, Repr

-- ===============================
-- ConstrainedType: reusable constructors (common.simple-types)
-- ===============================

namespace ConstrainedType

/-- `ConstrainedType.createString`: error if the input is empty (JS
falsiness of a string) or longer than `maxLen`, else wrap it. -/
def createString (fieldName : String) (ctor : String → T) (maxLen : Nat)
    (str : String) : Except ConstrainedTypeError T :=
  if str.isEmpty then
    .error ⟨fieldName, fieldName ++ " must not be null or empty"⟩
  else if str.length > maxLen then
    .error ⟨fieldName, fieldName ++ " must not be more than " ++ toString maxLen ++ " chars"⟩
  else
    .ok (ctor str)

/-- `ConstrainedType.createStringOption`: `none` for empty input, error
beyond `maxLen`, else `some`. -/
def createStringOption (fieldName : String) (ctor : String → T) (maxLen : Nat)
    (str : String) : Except ConstrainedTypeError (Option T) :=
  if str.isEmpty then
    .ok none
  else if str.length > maxLen then
    .error ⟨fieldName, fieldName ++ " must not be more than " ++ toString maxLen ++ " chars"⟩
  else
    .ok (some (ctor str))

/-- `ConstrainedType.createInt`. The source's upper-bound branch tests
`i > minVal` (common.simple-types line 467), not `i > maxVal`; the
embedding reproduces that comparison as written. -/
def createInt (fieldName : String) (ctor : Rat → T) (minVal maxVal : Rat)
    (i : Rat) : Except ConstrainedTypeError T :=
  if ¬ i.isInt then
    .error ⟨fieldName, fieldName ++ " must be an integer"⟩
  else if i < minVal then
    .error ⟨fieldName, fieldName ++ " must not be less than " ++ toString minVal⟩
  else if i > minVal then
    .error ⟨fieldName, fieldName ++ " must not be more than " ++ toString maxVal⟩
  else
    .ok (ctor i)

/-- `ConstrainedType.createDecimal`. The source's upper-bound branch tests
`i > minVal` (common.simple-types line 492), not `i > maxVal`; the
embedding reproduces that comparison as written. -/
def createDecimal (fieldName : String) (ctor : Rat → T) (minVal maxVal : Rat)
    (i : Rat) : Except ConstrainedTypeError T :=
  if i < minVal then
    .error ⟨fieldName, fieldName ++ " must not be less than " ++ toString minVal⟩
  else if i > minVal then
    .error ⟨fieldName, fieldName ++ " must not be more than " ++ toString maxVal⟩
  else
    .ok (ctor i)

/-- `ConstrainedType.createLike`: error on empty input or pattern
mismatch. The regex is supplied as an executable test plus its display
string (used only inside the error message). -/
def createLike (fieldName : String) (ctor : String → T) (test : String → Bool)
    (patternStr : String) (str : String) : Except ConstrainedTypeError T :=
  if str.isEmpty then
    .error ⟨fieldName, fieldName ++ " must not be null or empty"⟩
  else if test str then
    .ok (ctor str)
  else
    .error ⟨fieldName, fieldName ++ ": '" ++ str ++ "' must match the pattern '" ++ patternStr ++ "'"⟩

end ConstrainedType

-- ===============================
-- Regex tests (JavaScript `RegExp.prototype.test`, no anchors added)
-- ===============================

/-- `digitRunAt n cs` holds when `cs` starts with `n` digit characters
(JS `\d`, i.e. 0-9). -/
def digitRunAt : Nat → List Char → Bool
  | 0, _ => true
  | _ + 1, [] => false
  | n + 1, c :: cs => c.isDigit && digitRunAt n cs

/-- `containsDigitRun n cs` holds when some suffix of `cs` starts with `n`
digit characters: the unanchored test of `/\d{n}/`. -/
def containsDigitRun (n : Nat) : List Char → Bool
  | [] => digitRunAt n []
  | c :: cs => digitRunAt n (c :: cs) || containsDigitRun n cs

/-- `exactlyDigits n cs` holds when `cs` is exactly `n` digit characters
(the `\d{n}$` part of an anchored pattern). -/
def exactlyDigits : Nat → List Char → Bool
  | 0, [] => true
  | 0, _ :: _ => false
  | _ + 1, [] => false
  | n + 1, c :: cs => c.isDigit && exactlyDigits n cs

/-- Test of `/\d{5}/` (unanchored), used by `ZipCode.create`. -/
def zipTest (s : String) : Bool :=
  containsDigitRun 5 s.data

/-- Test of `/^W\d{4}$/`, used by `WidgetCode.create`. -/
def widgetTest (s : String) : Bool :=
  match s.data with
  | 'W' :: cs => exactlyDigits 4 cs
  | _ => false

/-- Test of `/^G\d{3}$/`, used by `GizmoCode.create`. -/
def gizmoTest (s : String) : Bool :=
  match s.data with
  | 'G' :: cs => exactlyDigits 3 cs
  | _ => false

/-- A character matched by JS `.` (anything but a line terminator). -/
def isDotChar (c : Char) : Bool :=
  c ≠ '\n' && c ≠ '\r' && c ≠ Char.ofNat 0x2028 && c ≠ Char.ofNat 0x2029

/-- Test of `/.+@.+/` (unanchored): some `'@'` has a `.`-matching
character immediately before and after it. -/
def emailRun : List Char → Bool
  | a :: '@' :: b :: rest =>
      (isDotChar a && isDotChar b) || emailRun ('@' :: b :: rest)
  | _ :: rest => emailRun rest
  | [] => false

/-- Test of `/.+@.+/`, used by `EmailAddress.create`. -/
def emailTest (s : String) : Bool :=
  emailRun s.data

-- ===============================
-- Smart constructors (common.simple-types)
-- ===============================

/-- `String50.create`. -/
def String50.create (fieldName str : String) : Except ConstrainedTypeError String50 :=
  ConstrainedType.createString fieldName String50.mk 50 str

/-- `String50.createOption`. -/
def String50.createOption (fieldName str : String) :
    Except ConstrainedTypeError (Option String50) :=
  ConstrainedType.createStringOption fieldName String50.mk 50 str

/-- `EmailAddress.create`. -/
def EmailAddress.create (fieldName str : String) : Except ConstrainedTypeError EmailAddress :=
  ConstrainedType.createLike fieldName EmailAddress.mk emailTest "/.+@.+/" str

/-- `ZipCode.create`: pattern `/\d{5}/`, unanchored as in the source. -/
def ZipCode.create (fieldName str : String) : Except ConstrainedTypeError ZipCode :=
  ConstrainedType.createLike fieldName ZipCode.mk zipTest "/\\d\x7b5\x7d/" str

/-- Modelled from the spec: `UsStateCode.create` lives in the missing
final revision of common.simple-types; the spec constrains state codes no
further than being a constrained (tagged, non-empty) string, so the model
rejects only empty input. -/
def UsStateCode.create (fieldName str : String) : Except ConstrainedTypeError UsStateCode :=
  if str.isEmpty then
    .error ⟨fieldName, fieldName ++ " must not be null or empty"⟩
  else
    .ok ⟨str⟩

/-- Modelled from the spec: `VipStatus.create` lives in the missing final
revision of common.simple-types; the statuses are exactly "Normal" and
"Vip" (spec §4.4), any other input is a `VipStatusError`. -/
def VipStatus.create (fieldName str : String) : Except VipStatusError VipStatus :=
  if str = "Normal" then .ok .normal
  else if str = "Vip" then .ok .vip
  else .error ⟨fieldName, fieldName ++ ": '" ++ str ++ "' is not a valid vip status"⟩

/-- `OrderId.create`. -/
def OrderId.create (fieldName str : String) : Except ConstrainedTypeError OrderId :=
  ConstrainedType.createString fieldName OrderId.mk 50 str

/-- `OrderLineId.create`. -/
def OrderLineId.create (fieldName str : String) : Except ConstrainedTypeError OrderLineId :=
  ConstrainedType.createString fieldName OrderLineId.mk 50 str

/-- `WidgetCode.create`. -/
def WidgetCode.create (fieldName code : String) : Except ConstrainedTypeError WidgetCode :=
  ConstrainedType.createLike fieldName WidgetCode.mk widgetTest "/^W\\d\x7b4\x7d$/" code

/-- `GizmoCode.create`. -/
def GizmoCode.create (fieldName code : String) : Except ConstrainedTypeError GizmoCode :=
  ConstrainedType.createLike fieldName GizmoCode.mk gizmoTest "/^G\\d\x7b3\x7d$/" code

/-- Error union `ConstrainedTypeError | ProductCodeError` returned by
`ProductCode.create`. -/
inductive ProductCodeCreateError where
  | ct (e : ConstrainedTypeError)
  | pc (e : ProductCodeError)
deriving DecidableEq, Repr

/-- `ProductCode.create`: dispatch on the first character, `W` to
`WidgetCode.create`, `G` to `GizmoCode.create`, else a format error. -/
def ProductCode.create (fieldName code : String) :
    Except ProductCodeCreateError ProductCode :=
  if code.isEmpty then
    .error (.pc ⟨fieldName, fieldName ++ " must not be null or empty"⟩)
  else if code.startsWith "W" then
    ((WidgetCode.create fieldName code).map .widget).mapError .ct
  else if code.startsWith "G" then
    ((GizmoCode.create fieldName code).map .gizmo).mapError .ct
  else
    .error (.pc ⟨fieldName, fieldName ++ ": format not regonised '" ++ code ++ "'"⟩)

/-- `UnitQuantity.create`: `createInt` with bounds 1 and 1000. -/
def UnitQuantity.create (fieldName : String) (v : Rat) :
    Except ConstrainedTypeError UnitQuantity :=
  ConstrainedType.createInt fieldName UnitQuantity.mk 1 1000 v

/-- `KilogramQuantity.create`: `createDecimal` with bounds 0.05 and 100. -/
def KilogramQuantity.create (fieldName : String) (v : Rat) :
    Except ConstrainedTypeError KilogramQuantity :=
  ConstrainedType.createDecimal fieldName KilogramQuantity.mk 0.05 100 v

/-- `OrderQuantity.create`: Widget codes take a `UnitQuantity`, Gizmo
codes a `KilogramQuantity`. -/
def OrderQuantity.create (fieldName : String) (productCode : ProductCode)
    (quantity : Rat) : Except ConstrainedTypeError OrderQuantity :=
  match productCode with
  | .widget _ => (UnitQuantity.create fieldName quantity).map .unit
  | .gizmo _ => (KilogramQuantity.create fieldName quantity).map .kilogram

/-- `Price.create`: `createDecimal` with bounds 0 and 1000, field name
"Price". -/
def Price.create (v : Rat) : Except ConstrainedTypeError Price :=
  ConstrainedType.createDecimal "Price" Price.mk 0 1000 v

/-- `Price.unsafeCreate`: the source throws when `Price.create` fails;
the throw is modelled as the `.error` channel carrying the creation
error. -/
def Price.unsafeCreate (v : Rat) : Except ConstrainedTypeError Price :=
  match Price.create v with
  | .ok p => .ok p
  | .error e => .error e

/-- `Price.multiply`. -/
def Price.multiply (qty : Rat) (p : Price) : Except ConstrainedTypeError Price :=
  Price.create (qty * p.value)

/-- `BillingAmount.create`: `createDecimal` with bounds 0 and 10000,
field name "BillingAmount". -/
def BillingAmount.create (v : Rat) : Except ConstrainedTypeError BillingAmount :=
  ConstrainedType.createDecimal "BillingAmount" BillingAmount.mk 0 10000 v

/-- `BillingAmount.sumPrices`: fold the price values and re-validate. -/
def BillingAmount.sumPrices (prices : List Price) :
    Except ConstrainedTypeError BillingAmount :=
  BillingAmount.create (prices.foldl (fun acc p => acc + p.value) 0)

-- ===============================
-- Compound types (common.compound-types)
-- ===============================

/-- `PersonalName`. -/
structure PersonalName where
  firstName : String50
  lastName : String50
deriving DecidableEq, Repr

/-- `CustomerInfo` (final revision, with vip status). -/
structure CustomerInfo where
  name : PersonalName
  emailAddress : EmailAddress
  vipStatus : VipStatus
deriving DecidableEq, Repr

/-- `Address` (final revision, with state and country). -/
structure Address where
  addressLine1 : String50
  addressLine2 : Option String50
  addressLine3 : Option String50
  addressLine4 : Option String50
  city : String50
  zipCode : ZipCode
  state : UsStateCode
  country : String50
deriving DecidableEq, Repr

-- ===============================
-- Public types (place-order.public-types.ts)
-- ===============================

/-- `UnvalidatedCustomerInfo`. -/
structure UnvalidatedCustomerInfo where
  firstName : String
  lastName : String
  emailAddress : String
  vipStatus : String
deriving DecidableEq, Repr

/-- `UnvalidatedAddress`. -/
structure UnvalidatedAddress where
  addressLine1 : String
  addressLine2 : String
  addressLine3 : String
  addressLine4 : String
  city : String
  zipCode : String
  state : String
  country : String
deriving DecidableEq, Repr

/-- `UnvalidatedOrderLine`. -/
structure UnvalidatedOrderLine where
  orderLineId : String
  productCode : String
  quantity : Rat
deriving DecidableEq, Repr

/-- `UnvalidatedOrder` (final revision, with promotion code). -/
structure UnvalidatedOrder where
  orderId : String
  customerInfo : UnvalidatedCustomerInfo
  shippingAddress : UnvalidatedAddress
  billingAddress : UnvalidatedAddress
  lines : List UnvalidatedOrderLine
  promotionCode : String
deriving DecidableEq, Repr

/-- `ServiceInfo`. -/
structure ServiceInfo where
  name : String
  endpoint : String
deriving DecidableEq, Repr

/-- `PlaceOrderError = ValidationError | PricingError | RemoteServiceError`.
The runtime class of the error object is the constructor. -/
inductive PlaceOrderError where
  | validationError (fieldName message : String)
  | pricingError (fieldName message : String)
  | remoteServiceError (fieldName message : String) (service : ServiceInfo)
      (exceptionMessage : String)
deriving DecidableEq, Repr

/-- `ValidationError.fromOtherErrors`, applied to a
`ConstrainedTypeError`: keep field name and message. -/
def ValidationError.fromOtherErrors (e : ConstrainedTypeError) : PlaceOrderError :=
  .validationError e.fieldName e.message

/-- `ValidationError.fromOtherErrors`, applied to the
`ConstrainedTypeError | ProductCodeError` union from `ProductCode.create`. -/
def ValidationError.fromProductCodeCreateError (e : ProductCodeCreateError) :
    PlaceOrderError :=
  match e with
  | .ct e => .validationError e.fieldName e.message
  | .pc e => .validationError e.fieldName e.message

/-- `ValidationError.fromOtherErrors`, applied to a `VipStatusError`. -/
def ValidationError.fromVipStatusError (e : VipStatusError) : PlaceOrderError :=
  .validationError e.fieldName e.message

/-- `PricingError.fromOtherErrors`. The body of this static method
(place-order.public-types.ts line 141) constructs `new ValidationError`,
not a `PricingError`; the embedding reproduces that as written. -/
def PricingError.fromOtherErrors (e : ConstrainedTypeError) : PlaceOrderError :=
  .validationError e.fieldName e.message

-- ===============================
-- Internal types (place-order.internal-types.ts)
-- ===============================

/-- `AddressValidationError = InvalidFormat | AddressNotFound`. -/
inductive AddressValidationError where
  | invalidFormat (value : String)
  | addressNotFound (value : String)
deriving DecidableEq, Repr

/-- `CheckedAddress`: wrapped unvalidated address returned by the
address-existence collaborator. -/
structure CheckedAddress where
  value : UnvalidatedAddress
deriving DecidableEq, Repr

/-- `PromotionCode`. -/
structure PromotionCode where
  value : String
deriving DecidableEq, Repr

/-- `PricingMethod = "Standard" | PromotionCode`. -/
inductive PricingMethod where
  | standard
  | promotion (code : PromotionCode)
deriving DecidableEq, Repr

/-- `ValidatedOrderLine`. -/
structure ValidatedOrderLine where
  orderLineId : OrderLineId
  productCode : ProductCode
  quantity : OrderQuantity
deriving DecidableEq, Repr

/-- `ValidatedOrder`. -/
structure ValidatedOrder where
  orderId : OrderId
  customerInfo : CustomerInfo
  shippingAddress : Address
  billingAddress : Address
  lines : List ValidatedOrderLine
  pricingMethod : PricingMethod
deriving DecidableEq, Repr

/-- `PricedOrderProductLine`. -/
structure PricedOrderProductLine where
  orderLineId : OrderLineId
  productCode : ProductCode
  quantity : OrderQuantity
  linePrice : Price
deriving DecidableEq, Repr

/-- `PricedOrderLine = PricedOrderProductLine | CommentLine`. -/
inductive PricedOrderLine where
  | productLine (line : PricedOrderProductLine)
  | commentLine (value : String)
deriving DecidableEq, Repr

/-- `PricedOrder`. -/
structure PricedOrder where
  orderId : OrderId
  customerInfo : CustomerInfo
  shippingAddress : Address
  billingAddress : Address
  amountToBill : BillingAmount
  lines : List PricedOrderLine
  pricingMethod : PricingMethod
deriving DecidableEq, Repr

/-- `ShippingMethod`. -/
inductive ShippingMethod where
  | postalService
  | fedex24
  | fedex48
  | ups48
deriving DecidableEq, Repr

/-- `ShippingInfo`. -/
structure ShippingInfo where
  shippingMethod : ShippingMethod
  shippingCost : Price
deriving DecidableEq, Repr

/-- `PricedOrderWithShippingMethod`. -/
structure PricedOrderWithShippingMethod where
  shippingInfo : ShippingInfo
  pricedOrder : PricedOrder
deriving DecidableEq, Repr

/-- `HtmlString`. -/
structure HtmlString where
  value : String
deriving DecidableEq, Repr

/-- `OrderAcknowledgment`. -/
structure OrderAcknowledgment where
  emailAddress : EmailAddress
  letter : HtmlString
deriving DecidableEq, Repr

/-- `SendResult = "Sent" | "NotSent"`. -/
inductive SendResult where
  | sent
  | notSent
deriving DecidableEq, Repr

/-- `OrderAcknowledgmentSent` event. -/
structure OrderAcknowledgmentSent where
  orderId : OrderId
  emailAddress : EmailAddress
deriving DecidableEq, Repr

/-- `ShippableOrderLine`. -/
structure ShippableOrderLine where
  productCode : ProductCode
  quantity : OrderQuantity
deriving DecidableEq, Repr

/-- `PdfAttachment` as built by `createShippingEvent` (name plus an empty
bytes string). -/
structure PdfAttachment where
  name : String
  bytes : String
deriving DecidableEq, Repr

/-- `ShippableOrderPlaced` event. -/
structure ShippableOrderPlaced where
  orderId : OrderId
  shippingAddress : Address
  shipmentLines : List ShippableOrderLine
  pdf : PdfAttachment
deriving DecidableEq, Repr

/-- `BillableOrderPlaced` event. -/
structure BillableOrderPlaced where
  orderId : OrderId
  billingAddress : Address
  amountToBill : BillingAmount
deriving DecidableEq, Repr

/-- `PlaceOrderEvent` union. -/
inductive PlaceOrderEvent where
  | shippableOrderPlaced (e : ShippableOrderPlaced)
  | billableOrderPlaced (e : BillableOrderPlaced)
  | orderAcknowledgementSent (e : OrderAcknowledgmentSent)
deriving DecidableEq, Repr

/-- Runtime outcome channel of the workflow: an `Either`-left
(`PlaceOrderError`) or a thrown exception escaping `Price.unsafeCreate`. -/
inductive RuntimeError where
  | err (e : PlaceOrderError)
  | thrown (e : ConstrainedTypeError)
deriving DecidableEq, Repr

-- ===============================
-- Pricing module (place-order.pricing.ts)
-- ===============================

/-- Model of JavaScript `String.prototype.trim`: drop whitespace from
both ends (structural recursion over the character list). -/
def trimString (s : String) : String :=
  String.mk (((s.data.dropWhile Char.isWhitespace).reverse.dropWhile Char.isWhitespace).reverse)

/-- `createPricingMethod` (place-order.pricing.ts lines 17-20): the
source's conditional returns "Standard" when the trimmed promotion code
is truthy (non-empty) and wraps the code otherwise; the embedding
reproduces that branch direction as written. -/
def createPricingMethod (promotionCode : String) : PricingMethod :=
  if trimString promotionCode ≠ "" then
    .standard
  else
    .promotion ⟨promotionCode⟩

-- ===============================
-- Implementation (place-order.implementation, final revision)
-- ===============================

/-- `toCustomerInfo`: validate the four customer fields in order. -/
def toCustomerInfo (u : UnvalidatedCustomerInfo) :
    Except PlaceOrderError CustomerInfo := do
  let firstName ← (String50.create "firstName" u.firstName).mapError ValidationError.fromOtherErrors
  let lastName ← (String50.create "lastName" u.lastName).mapError ValidationError.fromOtherErrors
  let emailAddress ← (EmailAddress.create "emailAddress" u.emailAddress).mapError ValidationError.fromOtherErrors
  let vipStatus ← (VipStatus.create "vipStatus" u.vipStatus).mapError ValidationError.fromVipStatusError
  return { name := { firstName := firstName, lastName := lastName },
           emailAddress := emailAddress, vipStatus := vipStatus }

/-- `toAddress`: validate the eight address fields in order
(lines 2-4 are optional). -/
def toAddress (checkedAddress : CheckedAddress) :
    Except PlaceOrderError Address := do
  let addressLine1 ← (String50.create "AddressLine1" checkedAddress.value.addressLine1).mapError ValidationError.fromOtherErrors
  let addressLine2 ← (String50.createOption "AddressLine2" checkedAddress.value.addressLine2).mapError ValidationError.fromOtherErrors
  let addressLine3 ← (String50.createOption "AddressLine3" checkedAddress.value.addressLine3).mapError ValidationError.fromOtherErrors
  let addressLine4 ← (String50.createOption "AddressLine4" checkedAddress.value.addressLine4).mapError ValidationError.fromOtherErrors
  let city ← (String50.create "City" checkedAddress.value.city).mapError ValidationError.fromOtherErrors
  let zipCode ← (ZipCode.create "ZipCode" checkedAddress.value.zipCode).mapError ValidationError.fromOtherErrors
  let state ← (UsStateCode.create "State" checkedAddress.value.state).mapError ValidationError.fromOtherErrors
  let country ← (String50.create "Country" checkedAddress.value.country).mapError ValidationError.fromOtherErrors
  return { addressLine1 := addressLine1, addressLine2 := addressLine2,
           addressLine3 := addressLine3, addressLine4 := addressLine4,
           city := city, zipCode := zipCode, state := state, country := country }

/-- `toCheckedAddress`: call the address-existence collaborator and
translate its error shape into a `ValidationError`. -/
def toCheckedAddress (checkAddress : UnvalidatedAddress → Except AddressValidationError CheckedAddress)
    (address : UnvalidatedAddress) : Except PlaceOrderError CheckedAddress :=
  (checkAddress address).mapError fun addrError =>
    match addrError with
    | .addressNotFound _ => .validationError "" "Address not found"
    | .invalidFormat _ => .validationError "" "Address has bad format"

/-- `toOrderId`. -/
def toOrderId (orderId : String) : Except PlaceOrderError OrderId :=
  (OrderId.create "OrderId" orderId).mapError ValidationError.fromOtherErrors

/-- `toOrderLineId`. -/
def toOrderLineId (orderLineId : String) : Except PlaceOrderError OrderLineId :=
  (OrderLineId.create "OrderLineId" orderLineId).mapError ValidationError.fromOtherErrors

/-- `toProductCode`: construct the code, then consult the injected
existence check. -/
def toProductCode (checkProductCodeExists : ProductCode → Bool)
    (productCode : String) : Except PlaceOrderError ProductCode := do
  let code ← (ProductCode.create "ProductCode" productCode).mapError ValidationError.fromProductCodeCreateError
  if checkProductCodeExists code then
    return code
  else
    .error (.validationError "" ("Invalid: " ++ productCode))

/-- `toOrderQuantity`. -/
def toOrderQuantity (productCode : ProductCode) (quantity : Rat) :
    Except PlaceOrderError OrderQuantity :=
  (OrderQuantity.create "OrderQuantity" productCode quantity).mapError ValidationError.fromOtherErrors

/-- `toValidatedOrderLine`: line id, then product code (with existence
check), then quantity constrained by the code's variant. -/
def toValidatedOrderLine (checkProductCodeExists : ProductCode → Bool)
    (l : UnvalidatedOrderLine) : Except PlaceOrderError ValidatedOrderLine := do
  let orderLineId ← toOrderLineId l.orderLineId
  let productCode ← toProductCode checkProductCodeExists l.productCode
  let quantity ← toOrderQuantity productCode l.quantity
  return { orderLineId := orderLineId, productCode := productCode, quantity := quantity }

/-- `validateOrder`: order id, customer info, shipping address (checked
then constructed), billing address (same), all lines (sequence
semantics), pricing method from the promotion-code string. -/
def validateOrder (checkProductCodeExists : ProductCode → Bool)
    (checkAddressExists : UnvalidatedAddress → Except AddressValidationError CheckedAddress)
    (unvalidatedOrder : UnvalidatedOrder) : Except PlaceOrderError ValidatedOrder := do
  let orderId ← toOrderId unvalidatedOrder.orderId
  let customerInfo ← toCustomerInfo unvalidatedOrder.customerInfo
  let checkedShippingAddress ← toCheckedAddress checkAddressExists unvalidatedOrder.shippingAddress
  let shippingAddress ← toAddress checkedShippingAddress
  let checkedBillingAddress ← toCheckedAddress checkAddressExists unvalidatedOrder.billingAddress
  let billingAddress ← toAddress checkedBillingAddress
  let lines ← unvalidatedOrder.lines.mapM (toValidatedOrderLine checkProductCodeExists)
  let pricingMethod := createPricingMethod unvalidatedOrder.promotionCode
  return { orderId := orderId, customerInfo := customerInfo,
           shippingAddress := shippingAddress, billingAddress := billingAddress,
           lines := lines, pricingMethod := pricingMethod }

/-- `toPricedOrderLine`: multiply quantity by the looked-up price;
a multiplication failure is mapped through
`ValidationError.fromOtherErrors`. -/
def toPricedOrderLine (getProductPrice : ProductCode → Price)
    (l : ValidatedOrderLine) : Except PlaceOrderError PricedOrderProductLine := do
  let linePrice ← (Price.multiply l.quantity.value (getProductPrice l.productCode)).mapError ValidationError.fromOtherErrors
  return { orderLineId := l.orderLineId, productCode := l.productCode,
           quantity := l.quantity, linePrice := linePrice }

/-- `addCommentLine`: unchanged for Standard pricing; for a promotion,
append one comment line naming the promotion after all lines. -/
def addCommentLine (pricingMethod : PricingMethod) (lines : List PricedOrderLine) :
    List PricedOrderLine :=
  match pricingMethod with
  | .standard => lines
  | .promotion code => lines ++ [.commentLine ("Applied promotion " ++ code.value)]

/-- `getLinePrice`: a product line's stored price; a comment line
re-creates price 0 through `Price.unsafeCreate` (which can throw). -/
def getLinePrice (line : PricedOrderLine) : Except ConstrainedTypeError Price :=
  match line with
  | .productLine l => .ok l.linePrice
  | .commentLine _ => Price.unsafeCreate 0

/-- `priceOrder`: price every line, append the promotion comment line,
sum the line prices into a `BillingAmount` whose failure is mapped
through `PricingError.fromOtherErrors`. -/
def priceOrder (getPricingFunction : PricingMethod → ProductCode → Price)
    (validatedOrder : ValidatedOrder) : Except RuntimeError PricedOrder := do
  let productLines ← (validatedOrder.lines.mapM
      (toPricedOrderLine (getPricingFunction validatedOrder.pricingMethod))).mapError RuntimeError.err
  let lines := addCommentLine validatedOrder.pricingMethod
      (productLines.map PricedOrderLine.productLine)
  let prices ← (lines.mapM getLinePrice).mapError RuntimeError.thrown
  let amountToBill ← (BillingAmount.sumPrices prices).mapError
      (fun e => RuntimeError.err (PricingError.fromOtherErrors e))
  return { orderId := validatedOrder.orderId,
           customerInfo := validatedOrder.customerInfo,
           shippingAddress := validatedOrder.shippingAddress,
           billingAddress := validatedOrder.billingAddress,
           amountToBill := amountToBill, lines := lines,
           pricingMethod := validatedOrder.pricingMethod }

/-- State classification used by `calculateShippingCost`. -/
inductive UsStateClassification where
  | usLocalState
  | usRemoteState
  | international
deriving DecidableEq, Repr

/-- `getUsStateClassification` (nested inside `calculateShippingCost`). -/
def getUsStateClassification (address : Address) : UsStateClassification :=
  if address.country.value = "US" then
    if ["CA", "OR", "AZ", "NV"].contains address.state.value then
      .usLocalState
    else
      .usRemoteState
  else
    .international

/-- `calculateShippingCost`: 5 / 10 / 20 according to the shipping
address classification, each re-validated through `Price.unsafeCreate`. -/
def calculateShippingCost (pricedOrder : PricedOrder) : Except ConstrainedTypeError Price :=
  match getUsStateClassification pricedOrder.shippingAddress with
  | .usLocalState => Price.unsafeCreate 5
  | .usRemoteState => Price.unsafeCreate 10
  | .international => Price.unsafeCreate 20

/-- `addShippingInfoToOrder`: attach shipping method "Fedex24" and the
computed cost. -/
def addShippingInfoToOrder (calcShippingCost : PricedOrder → Except ConstrainedTypeError Price)
    (pricedOrder : PricedOrder) : Except ConstrainedTypeError PricedOrderWithShippingMethod := do
  let cost ← calcShippingCost pricedOrder
  return { pricedOrder := pricedOrder,
           shippingInfo := { shippingMethod := .fedex24, shippingCost := cost } }

/-- `freeVipShipping`: a "Normal" customer's order passes through; a
"Vip" customer's order gets a fresh shipping info with method "Fedex24"
and cost `Price.unsafeCreate 0`. -/
def freeVipShipping (order : PricedOrderWithShippingMethod) :
    Except ConstrainedTypeError PricedOrderWithShippingMethod :=
  match order.pricedOrder.customerInfo.vipStatus with
  | .normal => .ok order
  | .vip => do
      let cost ← Price.unsafeCreate 0
      return { order with shippingInfo := { shippingMethod := .fedex24, shippingCost := cost } }

/-- `acknowledgeOrder`: render the letter, send it, and emit the event
only when the send dependency reports "Sent". -/
def acknowledgeOrder (createAckLetter : PricedOrderWithShippingMethod → HtmlString)
    (sendAck : OrderAcknowledgment → SendResult)
    (order : PricedOrderWithShippingMethod) : Option OrderAcknowledgmentSent :=
  let letter := createAckLetter order
  let acknowledgement : OrderAcknowledgment :=
    { emailAddress := order.pricedOrder.customerInfo.emailAddress, letter := letter }
  match sendAck acknowledgement with
  | .sent => some { orderId := order.pricedOrder.orderId,
                    emailAddress := order.pricedOrder.customerInfo.emailAddress }
  | .notSent => none

/-- `makeShipmentLine`: product lines become shipment lines, comment
lines are dropped. -/
def makeShipmentLine (line : PricedOrderLine) : Option ShippableOrderLine :=
  match line with
  | .productLine l => some { productCode := l.productCode, quantity := l.quantity }
  | .commentLine _ => none

/-- `createShippingEvent`: map lines through `makeShipmentLine`, keep
the `some`s, sequence them, and fall back to the empty list (the
`O.toNullable` / `|| []` combination in the source). -/
def createShippingEvent (po : PricedOrder) : ShippableOrderPlaced :=
  { orderId := po.orderId, shippingAddress := po.shippingAddress,
    shipmentLines :=
      (((po.lines.map makeShipmentLine).filter (fun opt => opt.isSome)).mapM id).getD [],
    pdf := { name := "Order" ++ po.orderId.value ++ ".pdf", bytes := "" } }

/-- `createBillingEvent`: emitted exactly when `amountToBill` is
positive. -/
def createBillingEvent (po : PricedOrder) : Option BillableOrderPlaced :=
  if po.amountToBill.value > 0 then
    some { orderId := po.orderId, billingAddress := po.billingAddress,
           amountToBill := po.amountToBill }
  else
    none

/-- `listOfOption`. -/
def listOfOption : Option T → List T
  | none => []
  | some v => [v]

/-- `createEvents`: acknowledgment events, then the shipping event, then
billing events. -/
def createEvents (pricedOrder : PricedOrder)
    (ackOpt : Option OrderAcknowledgmentSent) : List PlaceOrderEvent :=
  (listOfOption ackOpt).map PlaceOrderEvent.orderAcknowledgementSent
    ++ [PlaceOrderEvent.shippableOrderPlaced (createShippingEvent pricedOrder)]
    ++ (listOfOption (createBillingEvent pricedOrder)).map PlaceOrderEvent.billableOrderPlaced

/-- `placeOrder`: validate, price, add shipping info, apply the VIP
adjustment, acknowledge, assemble events; the first failure
short-circuits. -/
def placeOrder (checkProductExists : ProductCode → Bool)
    (checkAddressExists : UnvalidatedAddress → Except AddressValidationError CheckedAddress)
    (getProductPrice : PricingMethod → ProductCode → Price)
    (createAckLetter : PricedOrderWithShippingMethod → HtmlString)
    (sendAck : OrderAcknowledgment → SendResult)
    (unvalidatedOrder : UnvalidatedOrder) : Except RuntimeError (List PlaceOrderEvent) := do
  let validatedOrder ← (validateOrder checkProductExists checkAddressExists unvalidatedOrder).mapError RuntimeError.err
  let pricedOrder ← priceOrder getProductPrice validatedOrder
  let withShipping ← (addShippingInfoToOrder calculateShippingCost pricedOrder).mapError RuntimeError.thrown
  let pricedOrderWithShipping ← (freeVipShipping withShipping).mapError RuntimeError.thrown
  let acknowledgementOption := acknowledgeOrder createAckLetter sendAck pricedOrderWithShipping
  return createEvents pricedOrder acknowledgementOption

-- ===============================
-- Observers used by the theorems
-- ===============================

/-- Billable payload of an event, `none` for the other variants. -/
def billableOf : PlaceOrderEvent → Option BillableOrderPlaced
  | .billableOrderPlaced e => some e
  | .shippableOrderPlaced _ => none
  | .orderAcknowledgementSent _ => none

/-- Position of an event's variant in the assembly order:
acknowledgment, then shipment, then billing. -/
def eventRank : PlaceOrderEvent → Nat
  | .orderAcknowledgementSent _ => 0
  | .shippableOrderPlaced _ => 1
  | .billableOrderPlaced _ => 2

/-- Whether an event is the shipment event. -/
def isShipmentEvent : PlaceOrderEvent → Bool
  | .shippableOrderPlaced _ => true
  | .billableOrderPlaced _ => false
  | .orderAcknowledgementSent _ => false

-- ===============================
-- Concrete fixtures
-- ===============================

/-- A valid customer, vip status "Normal". -/
def sampleCustomer : CustomerInfo :=
  { name := { firstName := ⟨"A"⟩, lastName := ⟨"B"⟩ },
    emailAddress := ⟨"a@b"⟩, vipStatus := .normal }

/-- A valid US/CA address. -/
def sampleAddress : Address :=
  { addressLine1 := ⟨"Line1"⟩, addressLine2 := none, addressLine3 := none,
    addressLine4 := none, city := ⟨"City"⟩, zipCode := ⟨"12345"⟩,
    state := ⟨"CA"⟩, country := ⟨"US"⟩ }

/-- A validated order with exactly one Widget line of quantity 2 and no
promotion. -/
def standardWidgetOrder : ValidatedOrder :=
  { orderId := ⟨"O1"⟩, customerInfo := sampleCustomer,
    shippingAddress := sampleAddress, billingAddress := sampleAddress,
    lines := [{ orderLineId := ⟨"L1"⟩, productCode := .widget ⟨"W1234"⟩,
                quantity := .unit ⟨2⟩ }],
    pricingMethod := .standard }

/-- A priced order with a Vip customer. -/
def vipPricedOrder : PricedOrder :=
  { orderId := ⟨"O1"⟩,
    customerInfo := { sampleCustomer with vipStatus := .vip },
    shippingAddress := sampleAddress, billingAddress := sampleAddress,
    amountToBill := ⟨0⟩, lines := [], pricingMethod := .standard }

/-- A priced order with shipping method Ups48 for a Vip customer. -/
def vipUps48Order : PricedOrderWithShippingMethod :=
  { shippingInfo := { shippingMethod := .ups48, shippingCost := ⟨7⟩ },
    pricedOrder := vipPricedOrder }

/-- An unvalidated address whose zip code is the 4-digit string "1234"
and whose other fields are valid. -/
def invalidZipAddress : UnvalidatedAddress :=
  { addressLine1 := "Line1", addressLine2 := "", addressLine3 := "",
    addressLine4 := "", city := "City", zipCode := "1234",
    state := "CA", country := "US" }

/-- An unvalidated order with valid order id and customer info and the
4-digit zip code in its shipping address. -/
def invalidZipOrder : UnvalidatedOrder :=
  { orderId := "O1",
    customerInfo := { firstName := "A", lastName := "B",
                      emailAddress := "a@b", vipStatus := "Normal" },
    shippingAddress := invalidZipAddress, billingAddress := invalidZipAddress,
    lines := [], promotionCode := "" }

-- ===============================
-- Shared lemmas
-- ===============================

theorem digitRunAt_append (l rest : List Char) (hd : ∀ c ∈ l, c.isDigit = true) :
    digitRunAt l.length (l ++ rest) = true := by
  induction l with
  | nil => rfl
  | cons c cs ih =>
      simp only [List.length_cons, List.cons_append, digitRunAt, Bool.and_eq_true]
      exact ⟨hd c (by simp), ih fun x hx => hd x (by simp [hx])⟩

theorem containsDigitRun_append_left (n : Nat) (pre tail : List Char)
    (h : containsDigitRun n tail = true) :
    containsDigitRun n (pre ++ tail) = true := by
  induction pre with
  | nil => simpa using h
  | cons c cs ih =>
      simp only [List.cons_append, containsDigitRun, Bool.or_eq_true]
      exact Or.inr ih

theorem containsDigitRun_of_run (n : Nat) (l rest : List Char)
    (hlen : l.length = n) (hd : ∀ c ∈ l, c.isDigit = true) :
    containsDigitRun n (l ++ rest) = true := by
  cases l with
  | nil =>
      cases hlen
      cases rest <;> simp [containsDigitRun, digitRunAt]
  | cons c cs =>
      simp only [List.cons_append, containsDigitRun, Bool.or_eq_true]
      left
      have := digitRunAt_append (c :: cs) rest hd
      rwa [hlen] at this


-- ===============================
-- Claim theorems
-- ===============================

/-- C1: the claim says `OrderQuantity.create` accepts every integer in
[1, 1000] for a Widget code and every decimal in [0.05, 100] for a Gizmo
code. The code rejects the in-range inputs 2 (Widget) and 1 (Gizmo)
because the upper-bound branches of `createInt` and `createDecimal`
compare against `minVal` instead of `maxVal`. -/
theorem orderQuantity_create_rejects_in_range_values :
    OrderQuantity.create "OrderQuantity" (ProductCode.widget ⟨"W1234"⟩) 2
      = .error ⟨"OrderQuantity", "OrderQuantity must not be more than 1000"⟩
    ∧ OrderQuantity.create "OrderQuantity" (ProductCode.gizmo ⟨"G123"⟩) 1
      = .error ⟨"OrderQuantity", "OrderQuantity must not be more than 100"⟩ := by
  constructor
  · norm_num [OrderQuantity.create, UnitQuantity.create, ConstrainedType.createInt,
      Rat.isInt]
    rfl
  · norm_num [OrderQuantity.create, KilogramQuantity.create, ConstrainedType.createDecimal]
    rfl

/-- C2: the claim says the shipping stage never fails. In the code every
classification branch re-validates its constant cost (5, 10 or 20)
through `Price.unsafeCreate`, and `createDecimal`'s upper-bound branch
compares against `minVal` = 0, so every branch throws. -/
theorem calculateShippingCost_always_throws (po : PricedOrder) :
    calculateShippingCost po
      = .error ⟨"Price", "Price must not be more than 1000"⟩ := by
  unfold calculateShippingCost
  cases getUsStateClassification po.shippingAddress <;>
    · norm_num [Price.unsafeCreate, Price.create, ConstrainedType.createDecimal]
      rfl

/-- C3: the claim says a non-empty promotion-code string becomes the
pricing method and pricing then appends one comment line. The condition
in `createPricingMethod` is inverted: the non-empty code "HALF" yields
"Standard" (so `addCommentLine` appends nothing), while the empty string
is wrapped as a promotion code. -/
theorem createPricingMethod_condition_inverted :
    createPricingMethod "HALF" = PricingMethod.standard
    ∧ addCommentLine (createPricingMethod "HALF") [] = []
    ∧ createPricingMethod "" = PricingMethod.promotion ⟨""⟩ := by
  refine ⟨by simp [createPricingMethod, trimString], ?_, by simp [createPricingMethod, trimString]⟩
  simp [createPricingMethod, trimString, addCommentLine]

/-- C4: the claim says pricing the one-Widget-line (quantity 2, unit
price 10) order succeeds with `amountToBill` = 20. The code fails:
`Price.multiply 2 10` re-validates 20 through `createDecimal`, whose
upper-bound branch compares against `minVal` = 0, so 20 is rejected and
`priceOrder` returns the mapped creation error. -/
theorem priceOrder_widget_qty2_price10_fails :
    priceOrder (fun _ _ => ⟨10⟩) standardWidgetOrder
      = .error (.err (.validationError "Price" "Price must not be more than 1000")) := by
  norm_num [priceOrder, standardWidgetOrder, toPricedOrderLine, Price.multiply, Price.create,
    ConstrainedType.createDecimal, List.mapM, List.mapM.loop, Except.mapError,
    ValidationError.fromOtherErrors, OrderQuantity.value, bind, Except.bind]
  rfl

/-- C5: the claim says a billing-amount overflow in `priceOrder`
surfaces as a `PricingError`, never as a `ValidationError`. The body of
`PricingError.fromOtherErrors` constructs a `ValidationError`, so every
billing-amount failure mapped through it (as at the `amountToBill` step
of `priceOrder`) is surfaced as a `ValidationError`; the second conjunct
evaluates this on a sum of 10002. -/
theorem pricingError_surfaces_as_validationError :
    (∀ e : ConstrainedTypeError, PricingError.fromOtherErrors e
        = PlaceOrderError.validationError e.fieldName e.message)
    ∧ (BillingAmount.sumPrices [⟨10001⟩, ⟨1⟩]).mapError PricingError.fromOtherErrors
        = .error (.validationError "BillingAmount" "BillingAmount must not be more than 10000") := by
  constructor
  · intro e
    rfl
  · norm_num [BillingAmount.sumPrices, BillingAmount.create, ConstrainedType.createDecimal,
      Except.mapError, PricingError.fromOtherErrors, List.foldl]
    rfl

/-- C7: the billable events inside the assembled event list are exactly
one `BillableOrderPlaced` carrying the order's `amountToBill`, order id
and billing address when `amountToBill` is positive, and none otherwise
(in particular none when it is zero). -/
theorem createEvents_billable (po : PricedOrder) (ack : Option OrderAcknowledgmentSent) :
    (createEvents po ack).filterMap billableOf
      = if po.amountToBill.value > 0 then
          [{ orderId := po.orderId, billingAddress := po.billingAddress,
             amountToBill := po.amountToBill }]
        else [] := by
  unfold createEvents createBillingEvent
  cases ack <;> split <;> simp [billableOf, listOfOption]

/-- C8: in the assembled event list the variants appear in
non-decreasing rank order (acknowledgment before shipment before
billing), and the shipment event is present exactly once. -/
theorem createEvents_ordering (po : PricedOrder) (ack : Option OrderAcknowledgmentSent) :
    List.Pairwise (fun a b => eventRank a ≤ eventRank b) (createEvents po ack)
    ∧ (createEvents po ack).countP isShipmentEvent = 1 := by
  unfold createEvents createBillingEvent
  cases ack <;> split <;>
    simp [listOfOption, eventRank, isShipmentEvent, List.countP, List.countP.go]

/-- C9 counterexample: the claim says a Vip order keeps its shipping
method. On a Vip order shipped Ups48 the code returns method Fedex24. -/
theorem freeVipShipping_changes_method_cex :
    vipUps48Order.pricedOrder.customerInfo.vipStatus = VipStatus.vip
    ∧ vipUps48Order.shippingInfo.shippingMethod = ShippingMethod.ups48
    ∧ (freeVipShipping vipUps48Order).map (fun o => o.shippingInfo.shippingMethod)
        = .ok ShippingMethod.fedex24 := by
  refine ⟨rfl, rfl, ?_⟩
  norm_num [freeVipShipping, vipUps48Order, vipPricedOrder, sampleCustomer,
    Price.unsafeCreate, Price.create, ConstrainedType.createDecimal, Except.map, bind, Except.bind]
  rfl

/-- C9 (amended): `freeVipShipping` returns a "Normal" customer's order
entirely unchanged; for a "Vip" customer it returns the order with
shipping cost 0 and shipping method set to Fedex24 (so the method is
unchanged only when it already was Fedex24, as `addShippingInfoToOrder`
always produces), all other fields unchanged. -/
theorem freeVipShipping_spec (o : PricedOrderWithShippingMethod) :
    (o.pricedOrder.customerInfo.vipStatus = VipStatus.normal → freeVipShipping o = .ok o)
    ∧ (o.pricedOrder.customerInfo.vipStatus = VipStatus.vip →
        freeVipShipping o = .ok { o with shippingInfo :=
          { shippingMethod := .fedex24, shippingCost := ⟨0⟩ } }) := by
  constructor
  · intro h
    unfold freeVipShipping
    rw [h]
  · intro h
    unfold freeVipShipping
    rw [h]
    norm_num [Price.unsafeCreate, Price.create, ConstrainedType.createDecimal, bind, Except.bind]
    rfl

/-- C9 witness: the amended statement applied to the concrete Vip order
shipped Ups48. -/
theorem freeVipShipping_spec_witness :
    freeVipShipping vipUps48Order
      = .ok { vipUps48Order with shippingInfo :=
          { shippingMethod := .fedex24, shippingCost := ⟨0⟩ } } :=
  (freeVipShipping_spec vipUps48Order).2 rfl

/-- C10: `ZipCode.create` succeeds on every string containing five
consecutive digits anywhere (the pattern `/\d{5}/` is unanchored) and
stores the entire input string, not only exactly-five-digit strings. -/
theorem zipCode_create_unanchored (fieldName s : String)
    (pre mid post : List Char)
    (hs : s.data = pre ++ mid ++ post) (hlen : mid.length = 5)
    (hdig : ∀ c ∈ mid, c.isDigit = true) :
    ZipCode.create fieldName s = .ok ⟨s⟩ := by
  have hne : s.isEmpty = false := by
    cases hb : s.isEmpty
    · rfl
    · exfalso
      have hembed : s = "" := (String.isEmpty_iff s).mp hb
      subst hembed
      have hdatalen := congrArg List.length hs
      simp [List.length_append, hlen] at hdatalen
      omega
  have htest : zipTest s = true := by
    unfold zipTest
    rw [hs, List.append_assoc]
    exact containsDigitRun_append_left 5 pre (mid ++ post)
      (containsDigitRun_of_run 5 mid post hlen hdig)
  unfold ZipCode.create ConstrainedType.createLike
  rw [hne]
  simp [htest]

/-- C10 witness: "ab12345cd" contains five consecutive digits, so it is
accepted whole even though it is not an exactly-five-digit string. -/
theorem zipCode_create_unanchored_witness :
    ZipCode.create "ZipCode" "ab12345cd" = .ok ⟨"ab12345cd"⟩ :=
  zipCode_create_unanchored "ZipCode" "ab12345cd"
    ['a', 'b'] ['1', '2', '3', '4', '5'] ['c', 'd']
    (by rfl) (by rfl) (by decide)

/-- C6: for every unvalidated order whose shipping-address zip code is
"1234" and whose earlier-validated fields (order id, customer info,
address-existence check, address lines 1-4, city) are valid, the
workflow returns a `ValidationError` whose field name is "ZipCode"; the
`Either` result shape makes the error exclusive with any event list, so
zero events are produced. -/
theorem placeOrder_invalid_zip_returns_zip_validation_error
    (cpe : ProductCode → Bool)
    (cae : UnvalidatedAddress → Except AddressValidationError CheckedAddress)
    (gpf : PricingMethod → ProductCode → Price)
    (col : PricedOrderWithShippingMethod → HtmlString)
    (soa : OrderAcknowledgment → SendResult)
    (uo : UnvalidatedOrder)
    (oid : OrderId) (h1 : toOrderId uo.orderId = .ok oid)
    (ci : CustomerInfo) (h2 : toCustomerInfo uo.customerInfo = .ok ci)
    (h3 : cae uo.shippingAddress = .ok ⟨uo.shippingAddress⟩)
    (l1 : String50) (h4 : String50.create "AddressLine1" uo.shippingAddress.addressLine1 = .ok l1)
    (l2 : Option String50) (h5 : String50.createOption "AddressLine2" uo.shippingAddress.addressLine2 = .ok l2)
    (l3 : Option String50) (h6 : String50.createOption "AddressLine3" uo.shippingAddress.addressLine3 = .ok l3)
    (l4 : Option String50) (h7 : String50.createOption "AddressLine4" uo.shippingAddress.addressLine4 = .ok l4)
    (city : String50) (h8 : String50.create "City" uo.shippingAddress.city = .ok city)
    (h9 : uo.shippingAddress.zipCode = "1234") :
    ∃ msg, placeOrder cpe cae gpf col soa uo
      = .error (.err (.validationError "ZipCode" msg)) := by
  have hz : ZipCode.create "ZipCode" uo.shippingAddress.zipCode
      = .error ⟨"ZipCode", "ZipCode: " ++ "'" ++ "1234" ++ "'"
          ++ " must match the pattern " ++ "'" ++ "/\\d\x7b5\x7d/" ++ "'"⟩ := by
    rw [h9]
    rfl
  have haddr : toAddress ⟨uo.shippingAddress⟩
      = .error (.validationError "ZipCode" ("ZipCode: " ++ "'" ++ "1234" ++ "'"
          ++ " must match the pattern " ++ "'" ++ "/\\d\x7b5\x7d/" ++ "'")) := by
    unfold toAddress
    simp only [bind, Except.bind, Except.mapError]
    rw [h4, h5, h6, h7, h8, hz]
    rfl
  have hval : validateOrder cpe cae uo
      = .error (.validationError "ZipCode" ("ZipCode: " ++ "'" ++ "1234" ++ "'"
          ++ " must match the pattern " ++ "'" ++ "/\\d\x7b5\x7d/" ++ "'")) := by
    unfold validateOrder toCheckedAddress
    simp only [bind, Except.bind, Except.mapError]
    rw [h1, h2, h3]
    simp only []
    rw [haddr]
  refine ⟨"ZipCode: " ++ "'" ++ "1234" ++ "'"
    ++ " must match the pattern " ++ "'" ++ "/\\d\x7b5\x7d/" ++ "'", ?_⟩
  unfold placeOrder
  simp only [bind, Except.bind, Except.mapError]
  rw [hval]

/-- C6 witness: the theorem applied to a concrete order with zip "1234",
valid other fields, and well-behaved injected collaborators. -/
theorem placeOrder_invalid_zip_witness :
    ∃ msg, placeOrder (fun _ => true) (fun a => .ok ⟨a⟩) (fun _ _ => ⟨0⟩)
        (fun _ => ⟨"x"⟩) (fun _ => .sent) invalidZipOrder
      = .error (.err (.validationError "ZipCode" msg)) :=
  placeOrder_invalid_zip_returns_zip_validation_error (fun _ => true) (fun a => .ok ⟨a⟩) (fun _ _ => ⟨0⟩)
    (fun _ => ⟨"x"⟩) (fun _ => .sent) invalidZipOrder
    ⟨"O1"⟩ (by rfl)
    ⟨⟨⟨"A"⟩, ⟨"B"⟩⟩, ⟨"a@b"⟩, .normal⟩ (by rfl)
    (by rfl)
    ⟨"Line1"⟩ (by rfl) none (by rfl) none (by rfl) none (by rfl)
    ⟨"City"⟩ (by rfl) (by rfl)

end OrderTaking
